import Mathlib

/-!
Shallow embedding of the pygindex IG Index API client
(`src/pygindex/client.py`, `src/pygindex/models.py`, `src/pygindex/cli.py`).

Python dictionaries are modelled as association lists with unique keys in
insertion order; `dictGet` is first-match lookup (`d[k]` / `k in d`),
`dictSet` is item assignment (`d[k] = v`: replace in place, else append),
`dictUpdate` is `d.update(e)`.  Optional/None-able Python strings are
`Option String`; Python truthiness of such a value is `optTruthy`.
Machine time `time.time()` is an abstract integer `now` supplied as a
parameter.  The HTTP layer (`requests`) is an abstract `Transport`
function, and the calls a method makes through it are returned as an
explicit trace, so that "performs exactly one call" style properties can
be stated.  Uncaught Python exceptions (`KeyError`, `ValueError`) are
explicit error values carried next to the state reached when they are
raised, which keeps partially-performed mutations observable.
-/

namespace Pygindex

/-- A Python `dict` with string keys: association list in insertion order. -/
abbrev Dict (α : Type) := List (String × α)

/-- First-match lookup, `d[k]` (also used for `k in d` via `Option.isSome`). -/
def dictGet {α : Type} (d : Dict α) (k : String) : Option α :=
  match d with
  | [] => none
  | (k₁, v₁) :: rest => if k = k₁ then some v₁ else dictGet rest k

/-- Python item assignment `d[k] = v`: replace the binding in place if the
key is present, otherwise append at the end. -/
def dictSet {α : Type} (d : Dict α) (k : String) (v : α) : Dict α :=
  match d with
  | [] => [(k, v)]
  | (k₁, v₁) :: rest => if k₁ = k then (k, v) :: rest else (k₁, v₁) :: dictSet rest k v

/-- Python `d.update(e)`: item-assign every binding of `e` into `d`. -/
def dictUpdate {α : Type} (d e : Dict α) : Dict α :=
  match e with
  | [] => d
  | (k, v) :: rest => dictUpdate (dictSet d k v) rest

/-- Left-biased choice on `Option`, used to state lookup-priority facts. -/
def optOr {α : Type} (a b : Option α) : Option α :=
  match a with
  | some x => some x
  | none => b

theorem dictGet_dictSet {α : Type} (d : Dict α) (k : String) (v : α) (k' : String) :
    dictGet (dictSet d k v) k' = if k' = k then some v else dictGet d k' := by
  induction d with
  | nil =>
    by_cases h : k' = k <;> simp [dictSet, dictGet, h]
  | cons hd tl ih =>
    obtain ⟨k₁, v₁⟩ := hd
    by_cases h1 : k₁ = k
    · subst h1
      by_cases h2 : k' = k₁ <;> simp [dictSet, dictGet, h2]
    · by_cases h2 : k' = k
      · subst h2
        simp [dictSet, dictGet, h1, Ne.symm h1, ih]
      · by_cases h3 : k' = k₁ <;> simp [dictSet, dictGet, h1, h2, h3, ih]

/-- The session-token fields of `IGSession` and user-supplied strings are
`None`-able; Python truthiness of such a value (`None` and `""` are falsy). -/
def optTruthy (o : Option String) : Bool :=
  match o with
  | none => false
  | some s => !(s == "")

/-- Decimal digits to a number, `none` on a non-digit character. -/
def pyDigits (cs : List Char) (acc : Nat) : Option Nat :=
  match cs with
  | [] => some acc
  | c :: rest => if c.isDigit then pyDigits rest (acc * 10 + (c.toNat - 48)) else none

/-- Python `int(s)` on a string: an optional sign followed by at least one
decimal digit parses to the signed value; `none` models the `ValueError`
Python raises on a malformed numeral.  (Surrounding whitespace and
underscore digit separators, which Python also accepts, are not
modelled: the theorems below only ever assume that a value parses, so
the unmodelled acceptances narrow hypotheses and never add
conclusions.) -/
def pyIntOpt (s : String) : Option Int :=
  match s.data with
  | '-' :: c :: rest => (pyDigits (c :: rest) 0).map (fun n => -(Int.ofNat n))
  | '+' :: c :: rest => (pyDigits (c :: rest) 0).map Int.ofNat
  | [] => none
  | cs => (pyDigits cs 0).map Int.ofNat

/-- `IGUserAuth` after successful `__post_init__`: all three fields set. -/
structure IGUserAuth where
  api_key : String
  username : String
  password : String
deriving DecidableEq

/-- `IGAPIConfig` after successful `__post_init__`. -/
structure IGAPIConfig where
  platform : String
  base_url : String
deriving DecidableEq

/-- `IGAPIConfig.session_url`. -/
def sessionUrl (c : IGAPIConfig) : String := c.base_url ++ "/session"

/-- `IGSession` dataclass: two optional tokens and an expiry timestamp. -/
structure IGSession where
  cst : Option String
  security_token : Option String
  expires : Int
deriving DecidableEq

/-- `IGResponse` dataclass: decoded body and response headers. -/
structure IGResponse where
  data : Dict (Option String)
  headers : Dict String
deriving DecidableEq

/-- Request headers / payload dictionaries may carry `None` values
(for example `encryptedPassword: None`). -/
abbrev ReqHeaders := Dict (Option String)

/-- One call made through `IGClient._request`, recorded for trace properties. -/
structure Call where
  url : String
  method : String
  headers : ReqHeaders
  data : Option ReqHeaders
deriving DecidableEq

/-- The HTTP layer under `IGClient._request`: a response for every
(url, method, headers, data) tuple. -/
abbrev Transport := String → String → ReqHeaders → Option ReqHeaders → IGResponse

/-- An uncaught Python exception observed by the model: a `KeyError` from
a missing header, or the `ValueError` from `int()` on a malformed
expiry-hint value. -/
inductive PyError where
  | keyError (key : String)
  | valueError
deriving DecidableEq

/-- `IGUserAuth.auth_req_headers`. -/
def auth_req_headers (a : IGUserAuth) : ReqHeaders :=
  [("X-IG-API-KEY", some a.api_key), ("Content-Type", some "application/json")]

/-- `IGUserAuth.auth_req_data`. -/
def auth_req_data (a : IGUserAuth) : ReqHeaders :=
  [("identifier", some a.username), ("password", some a.password),
   ("encryptedPassword", none)]

/-- `IGClient._authentication_is_valid`, with the current time abstracted
as `now = int(time.time())`. -/
def authentication_is_valid (session : IGSession) (now : Int) : Bool :=
  if session.expires < now then false
  else if !(optTruthy session.cst && optTruthy session.security_token) then false
  else true

/-- Result of `IGClient._authenticate`: the session state reached (also on
failure, to expose partial mutation), the transport calls made, and the
uncaught exception if one was raised. -/
structure AuthOutcome where
  session : IGSession
  calls : List Call
  error : Option PyError
deriving DecidableEq

/-- The POST that `IGClient._authenticate` sends to the session endpoint. -/
def authPostCall (auth : IGUserAuth) (api : IGAPIConfig) : Call :=
  ⟨sessionUrl api, "post", auth_req_headers auth, some (auth_req_data auth)⟩

/-- The response `IGClient._authenticate` receives from the transport. -/
def authPostResponse (t : Transport) (auth : IGUserAuth) (api : IGAPIConfig) : IGResponse :=
  t (sessionUrl api) "post" (auth_req_headers auth) (some (auth_req_data auth))

/-- The last two lines of `IGClient._authenticate`: read the `CST` and
`X-SECURITY-TOKEN` response headers (each read raises `KeyError` when
the header is absent) into the session reached so far. -/
def extractTokens (headers : Dict String) (s1 : IGSession) (calls : List Call) :
    AuthOutcome :=
  match dictGet headers "CST" with
  | none => ⟨s1, calls, some (PyError.keyError "CST")⟩
  | some c =>
    let s2 := { s1 with cst := some c }
    match dictGet headers "X-SECURITY-TOKEN" with
    | none => ⟨s2, calls, some (PyError.keyError "X-SECURITY-TOKEN")⟩
    | some st => ⟨{ s2 with security_token := some st }, calls, none⟩

/-- `IGClient._authenticate`: POST to the session URL with the credential
headers and body; if `Access-Control-Max-Age` is present set
`expires = now + int(hint)` — where `int()` raises `ValueError` on a
malformed value, before any assignment, leaving the session unchanged —
then read the two token headers into the session. -/
def authenticate (t : Transport) (now : Int) (auth : IGUserAuth) (api : IGAPIConfig)
    (session : IGSession) : AuthOutcome :=
  let req := authPostResponse t auth api
  let calls := [authPostCall auth api]
  match dictGet req.headers "Access-Control-Max-Age" with
  | some hint =>
    match pyIntOpt hint with
    | some n => extractTokens req.headers { session with expires := now + n } calls
    | none => ⟨session, calls, some PyError.valueError⟩
  | none => extractTokens req.headers session calls

/-- The expiry-hint header of an authentication response, when present, is
a numeral `int()` accepts (so `_authenticate` does not stop at the
`ValueError` of `client.py:287-289`). -/
def hintParses (resp : IGResponse) : Bool :=
  match dictGet resp.headers "Access-Control-Max-Age" with
  | some hint => (pyIntOpt hint).isSome
  | none => true

/-- The header dictionary `IGClient._authenticated_request` hands to the
transport: caller headers (or `{}`), then `update` with the session
tokens, then `update` with `auth_req_headers`. -/
def mergedHeaders (auth : IGUserAuth) (session : IGSession)
    (headers : Option ReqHeaders) : ReqHeaders :=
  let hdrs := headers.getD []
  dictUpdate
    (dictUpdate hdrs
      [("CST", session.cst), ("X-SECURITY-TOKEN", session.security_token)])
    (auth_req_headers auth)

/-- Result of `IGClient._authenticated_request`: final session, call trace,
the response when the call completed, and the propagated exception if
re-authentication failed. -/
structure ReqOutcome where
  session : IGSession
  calls : List Call
  response : Option IGResponse
  error : Option PyError
deriving DecidableEq

/-- `IGClient._authenticated_request`: re-authenticate if the session is
not valid, merge the three header sets, and perform the requested call. -/
def authenticated_request (t : Transport) (now : Int) (auth : IGUserAuth)
    (api : IGAPIConfig) (session : IGSession) (url method : String)
    (headers : Option ReqHeaders) (data : Option ReqHeaders) : ReqOutcome :=
  let pre : AuthOutcome :=
    if authentication_is_valid session now then ⟨session, [], none⟩
    else authenticate t now auth api session
  match pre.error with
  | some e => ⟨pre.session, pre.calls, none, some e⟩
  | none =>
    let hdrs := mergedHeaders auth pre.session headers
    let req := t url method hdrs data
    ⟨pre.session, pre.calls ++ [⟨url, method, hdrs, data⟩], some req, none⟩

/-! ### Lookup facts about the merged header dictionary -/

theorem dictGet_mergedHeaders_CST (auth : IGUserAuth) (session : IGSession)
    (headers : Option ReqHeaders) :
    dictGet (mergedHeaders auth session headers) "CST" = some session.cst := by
  simp [mergedHeaders, dictUpdate, dictGet_dictSet]

theorem dictGet_auth_req_headers_CST (auth : IGUserAuth) :
    dictGet (auth_req_headers auth) "CST" = none := by
  simp [auth_req_headers, dictGet]

/-! ### Concrete collaborators used by the witnesses -/

/-- Credentials after a successful construction. -/
def mockAuth : IGUserAuth := ⟨"key", "user", "pass"⟩

/-- The live-platform endpoint configuration. -/
def mockApi : IGAPIConfig := ⟨"live", "https://api.ig.com/gateway/deal"⟩

/-- The default `IGSession()`: no tokens, `expires = 0`. -/
def freshSession : IGSession := ⟨none, none, 0⟩

/-- A session holding both tokens, expiring at timestamp 1000. -/
def liveSession : IGSession := ⟨some "abc", some "xyz", 1000⟩

/-- A transport whose every response carries the three authentication
headers of the spec scenario. -/
def mockAuthTransport : Transport := fun _ _ _ _ =>
  ⟨[], [("CST", "abc"), ("X-SECURITY-TOKEN", "xyz"), ("Access-Control-Max-Age", "3600")]⟩

/-! ### C1 -/

/-- The validity predicate exactly as the spec words it: `expires > now`
and both tokens present. -/
def specSessionValid (session : IGSession) (now : Int) : Prop :=
  session.expires > now ∧ optTruthy session.cst = true ∧
    optTruthy session.security_token = true

/-- C1 (counterexample): at the exact expiry instant (`expires = now = 5`)
with both tokens present, `_authentication_is_valid` returns `true`
(the code tests `expires < now`), while the claimed predicate
`expires > now AND both tokens present` is false there. -/
theorem authentication_is_valid_at_expiry_instant :
    authentication_is_valid ⟨some "a", some "b", 5⟩ 5 = true ∧
      ¬ specSessionValid ⟨some "a", some "b", 5⟩ 5 :=
  ⟨by decide, fun h => absurd h.1 (by decide)⟩

/-- C1 (amended): `_authentication_is_valid` returns true iff
`expires >= now` AND the cst token is truthy AND the security token is
truthy; in particular it is false whenever `expires < now`, and true
whenever `expires >= now` with both tokens present. -/
theorem authentication_is_valid_iff (session : IGSession) (now : Int) :
    authentication_is_valid session now = true ↔
      (now ≤ session.expires ∧ optTruthy session.cst = true ∧
        optTruthy session.security_token = true) := by
  unfold authentication_is_valid
  split_ifs with h1 h2
  · simp only [Bool.false_eq_true, false_iff]
    rintro ⟨hge, -, -⟩
    omega
  · simp only [Bool.false_eq_true, false_iff]
    rintro ⟨-, hc, hs⟩
    rw [hc, hs] at h2
    simp at h2
  · have hand : (optTruthy session.cst && optTruthy session.security_token) = true := by
      cases hcs : (optTruthy session.cst && optTruthy session.security_token) with
      | true => rfl
      | false => exact absurd (by simp [hcs]) h2
    rw [Bool.and_eq_true] at hand
    rcases hand with ⟨hc, hs⟩
    exact ⟨fun _ => ⟨by omega, hc, hs⟩, fun _ => rfl⟩

/-! ### C2 -/

/-- C2: with an invalid session and a transport whose POST response to the
session endpoint carries `CST: abc`, `X-SECURITY-TOKEN: xyz` and
`Access-Control-Max-Age: 3600`, `_authenticated_request` ends with
session `{cst: abc, security_token: xyz, expires = now + 3600}` and the
originally requested call to the target URL is still performed, after
the authentication call. -/
theorem authenticated_request_reauthenticates_and_proceeds
    (t : Transport) (now : Int) (auth : IGUserAuth) (api : IGAPIConfig)
    (session : IGSession) (url method : String)
    (headers data : Option ReqHeaders)
    (hInvalid : authentication_is_valid session now = false)
    (hT : ∀ h d, (t (sessionUrl api) "post" h d).headers =
      [("CST", "abc"), ("X-SECURITY-TOKEN", "xyz"), ("Access-Control-Max-Age", "3600")]) :
    (authenticated_request t now auth api session url method headers data).session =
      ⟨some "abc", some "xyz", now + 3600⟩ ∧
    (authenticated_request t now auth api session url method headers data).calls.map
        Call.url = [sessionUrl api, url] ∧
    (authenticated_request t now auth api session url method headers data).error = none := by
  have hA : authenticate t now auth api session =
      ⟨⟨some "abc", some "xyz", now + 3600⟩, [authPostCall auth api], none⟩ := by
    simp only [authenticate, authPostResponse, hT]
    rfl
  simp only [authenticated_request, hInvalid, Bool.false_eq_true, if_false, hA]
  simp [authPostCall]

/-- Witness for C2 at the fresh session, `now = 100`, a GET to a target
URL, with `mockAuthTransport`. -/
theorem authenticated_request_reauthenticates_and_proceeds_witness :
    authentication_is_valid freshSession 100 = false ∧
    (∀ h d, (mockAuthTransport (sessionUrl mockApi) "post" h d).headers =
      [("CST", "abc"), ("X-SECURITY-TOKEN", "xyz"), ("Access-Control-Max-Age", "3600")]) ∧
    ((authenticated_request mockAuthTransport 100 mockAuth mockApi freshSession
        "https://api.ig.com/gateway/deal/accounts" "get" none none).session =
      ⟨some "abc", some "xyz", 100 + 3600⟩ ∧
    (authenticated_request mockAuthTransport 100 mockAuth mockApi freshSession
        "https://api.ig.com/gateway/deal/accounts" "get" none none).calls.map
        Call.url = [sessionUrl mockApi, "https://api.ig.com/gateway/deal/accounts"] ∧
    (authenticated_request mockAuthTransport 100 mockAuth mockApi freshSession
        "https://api.ig.com/gateway/deal/accounts" "get" none none).error = none) :=
  ⟨by decide, fun _ _ => rfl,
    authenticated_request_reauthenticates_and_proceeds mockAuthTransport 100 mockAuth
      mockApi freshSession "https://api.ig.com/gateway/deal/accounts" "get" none none
      (by decide) (fun _ _ => rfl)⟩

/-! ### C3 -/

/-- C3: with a valid session, `_authenticated_request` performs exactly one
transport call, to the target URL with the requested method, leaves the
session untouched, and performs no authentication call (no call carries
the bare credential headers of the session-endpoint POST). -/
theorem authenticated_request_valid_session_single_call
    (t : Transport) (now : Int) (auth : IGUserAuth) (api : IGAPIConfig)
    (session : IGSession) (url method : String)
    (headers data : Option ReqHeaders)
    (hValid : authentication_is_valid session now = true) :
    (authenticated_request t now auth api session url method headers data).calls =
      [⟨url, method, mergedHeaders auth session headers, data⟩] ∧
    (authenticated_request t now auth api session url method headers data).session =
      session ∧
    (authenticated_request t now auth api session url method headers data).error =
      none ∧
    ∀ c ∈ (authenticated_request t now auth api session url method headers data).calls,
      ¬(c.url = sessionUrl api ∧ c.method = "post" ∧
        c.headers = auth_req_headers auth) := by
  simp only [authenticated_request, hValid, if_true]
  refine ⟨by simp, by simp, by simp, ?_⟩
  intro c hc
  simp only [List.nil_append, List.mem_singleton] at hc
  subst hc
  rintro ⟨-, -, h3⟩
  have hcst := congrArg (fun d => dictGet d "CST") h3
  simp only [dictGet_mergedHeaders_CST, dictGet_auth_req_headers_CST] at hcst
  exact Option.noConfusion hcst

/-- Witness for C3 with a valid session and a GET to the markets URL. -/
theorem authenticated_request_valid_session_single_call_witness :
    authentication_is_valid liveSession 100 = true ∧
    ((authenticated_request mockAuthTransport 100 mockAuth mockApi liveSession
        "https://api.ig.com/gateway/deal/markets" "get" none none).calls =
      [⟨"https://api.ig.com/gateway/deal/markets", "get",
        mergedHeaders mockAuth liveSession none, none⟩] ∧
    (authenticated_request mockAuthTransport 100 mockAuth mockApi liveSession
        "https://api.ig.com/gateway/deal/markets" "get" none none).session =
      liveSession ∧
    (authenticated_request mockAuthTransport 100 mockAuth mockApi liveSession
        "https://api.ig.com/gateway/deal/markets" "get" none none).error = none ∧
    ∀ c ∈ (authenticated_request mockAuthTransport 100 mockAuth mockApi liveSession
        "https://api.ig.com/gateway/deal/markets" "get" none none).calls,
      ¬(c.url = sessionUrl mockApi ∧ c.method = "post" ∧
        c.headers = auth_req_headers mockAuth)) :=
  ⟨by decide,
    authenticated_request_valid_session_single_call mockAuthTransport 100 mockAuth
      mockApi liveSession "https://api.ig.com/gateway/deal/markets" "get" none none
      (by decide)⟩

/-! ### C4 -/

/-- C4: the headers `_authenticated_request` hands to the transport are the
merge of caller headers, then the two session-token headers, then the
credential headers, with a later set overriding an earlier one on key
collision; hence any key bound in `auth_req_headers` keeps the
credential value. -/
theorem authenticated_request_header_merge
    (t : Transport) (now : Int) (auth : IGUserAuth) (api : IGAPIConfig)
    (session : IGSession) (url method : String)
    (headers data : Option ReqHeaders)
    (hValid : authentication_is_valid session now = true) :
    (authenticated_request t now auth api session url method headers data).calls.map
        Call.headers = [mergedHeaders auth session headers] ∧
    (∀ k, dictGet (mergedHeaders auth session headers) k =
      optOr (dictGet (auth_req_headers auth) k)
        (optOr (dictGet [("CST", session.cst),
            ("X-SECURITY-TOKEN", session.security_token)] k)
          (dictGet (headers.getD []) k))) ∧
    (∀ k v, dictGet (auth_req_headers auth) k = some v →
      dictGet (mergedHeaders auth session headers) k = some v) := by
  have hmerge : ∀ k, dictGet (mergedHeaders auth session headers) k =
      optOr (dictGet (auth_req_headers auth) k)
        (optOr (dictGet [("CST", session.cst),
            ("X-SECURITY-TOKEN", session.security_token)] k)
          (dictGet (headers.getD []) k)) := by
    intro k
    simp only [mergedHeaders, auth_req_headers, dictUpdate]
    rw [dictGet_dictSet, dictGet_dictSet, dictGet_dictSet, dictGet_dictSet]
    by_cases hk1 : k = "Content-Type" <;> by_cases hk2 : k = "X-IG-API-KEY" <;>
      by_cases hk3 : k = "X-SECURITY-TOKEN" <;> by_cases hk4 : k = "CST" <;>
      simp_all [dictGet, optOr]
  refine ⟨?_, hmerge, ?_⟩
  · simp [authenticated_request, hValid]
  · intro k v hv
    rw [hmerge k, hv]
    rfl

/-- Witness for C4: a caller-supplied `Content-Type` header is overridden
by the credential value. -/
theorem authenticated_request_header_merge_witness :
    authentication_is_valid liveSession 100 = true ∧
    dictGet (auth_req_headers mockAuth) "Content-Type" = some (some "application/json") ∧
    dictGet (mergedHeaders mockAuth liveSession
        (some [("Content-Type", some "text/plain")])) "Content-Type" =
      some (some "application/json") :=
  ⟨by decide, by decide,
    (authenticated_request_header_merge mockAuthTransport 100 mockAuth mockApi
        liveSession "https://api.ig.com/gateway/deal/markets" "get"
        (some [("Content-Type", some "text/plain")]) none (by decide)).2.2
      "Content-Type" (some "application/json") (by decide)⟩

/-! ### C5 -/

/-- C5: when the authentication response has no `Access-Control-Max-Age`
header but carries both tokens, `_authenticate` overwrites `cst` and
`security_token` and leaves `expires` exactly at its previous value;
no other session mutation occurs and no error is raised. -/
theorem authenticate_missing_expiry_hint_frame
    (t : Transport) (now : Int) (auth : IGUserAuth) (api : IGAPIConfig)
    (session : IGSession) (c st : String)
    (hMA : dictGet (authPostResponse t auth api).headers "Access-Control-Max-Age" = none)
    (hC : dictGet (authPostResponse t auth api).headers "CST" = some c)
    (hS : dictGet (authPostResponse t auth api).headers "X-SECURITY-TOKEN" = some st) :
    authenticate t now auth api session =
      ⟨⟨some c, some st, session.expires⟩, [authPostCall auth api], none⟩ := by
  simp only [authenticate, hMA, extractTokens, hC, hS]

/-- A transport whose responses carry both tokens but no expiry hint. -/
def mockNoHintTransport : Transport := fun _ _ _ _ =>
  ⟨[], [("CST", "abc"), ("X-SECURITY-TOKEN", "xyz")]⟩

/-- Witness for C5 with `mockNoHintTransport` and the token-holding session. -/
theorem authenticate_missing_expiry_hint_frame_witness :
    dictGet (authPostResponse mockNoHintTransport mockAuth mockApi).headers
        "Access-Control-Max-Age" = none ∧
    dictGet (authPostResponse mockNoHintTransport mockAuth mockApi).headers
        "CST" = some "abc" ∧
    dictGet (authPostResponse mockNoHintTransport mockAuth mockApi).headers
        "X-SECURITY-TOKEN" = some "xyz" ∧
    authenticate mockNoHintTransport 100 mockAuth mockApi liveSession =
      ⟨⟨some "abc", some "xyz", liveSession.expires⟩, [authPostCall mockAuth mockApi], none⟩ :=
  ⟨rfl, rfl, rfl,
    authenticate_missing_expiry_hint_frame mockNoHintTransport 100 mockAuth mockApi
      liveSession "abc" "xyz" rfl rfl rfl⟩

/-! ### C6 -/

/-- A transport whose responses carry a malformed expiry hint and neither
token. -/
def mockBadHintTransport : Transport := fun _ _ _ _ =>
  ⟨[], [("Access-Control-Max-Age", "abc")]⟩

/-- With a parsing (or absent) expiry hint, `_authenticate` reaches the
token extraction, on a session that differs from the initial one at
most in `expires`. -/
theorem authenticate_hint_ok (t : Transport) (now : Int) (auth : IGUserAuth)
    (api : IGAPIConfig) (session : IGSession)
    (hHint : hintParses (authPostResponse t auth api) = true) :
    ∃ s1 : IGSession, s1.cst = session.cst ∧ s1.security_token = session.security_token ∧
      authenticate t now auth api session =
        extractTokens (authPostResponse t auth api).headers s1 [authPostCall auth api] := by
  unfold hintParses at hHint
  rcases hMA : dictGet (authPostResponse t auth api).headers "Access-Control-Max-Age" with
    _ | hint
  · exact ⟨session, rfl, rfl, by simp only [authenticate, hMA]⟩
  · simp only [hMA] at hHint
    rcases hpy : pyIntOpt hint with _ | n
    · simp [hpy] at hHint
    · exact ⟨{ session with expires := now + n }, rfl, rfl,
        by simp only [authenticate, hMA, hpy]⟩

/-- C6 (counterexample): for an authentication response that omits `CST`
but carries the malformed expiry hint `Access-Control-Max-Age: abc`,
`_authenticate` stops at the `ValueError` of `int("abc")` — not at a
lookup/key error, as the claim asserts for every `CST`-less response. -/
theorem authenticate_malformed_hint_not_key_error :
    dictGet (authPostResponse mockBadHintTransport mockAuth mockApi).headers "CST" =
      none ∧
    (authenticate mockBadHintTransport 100 mockAuth mockApi freshSession).error =
      some PyError.valueError ∧
    PyError.valueError ≠ PyError.keyError "CST" ∧
    PyError.valueError ≠ PyError.keyError "X-SECURITY-TOKEN" :=
  ⟨rfl, rfl, by decide, by decide⟩

/-- C6 (amended): provided the expiry-hint header, when present, is a
numeral `int()` accepts, an authentication response omitting the `CST`
header makes `_authenticate` fail with `KeyError "CST"`, which
propagates uncaught through `_authenticated_request` (the requested
call is not performed); with `CST` present but `X-SECURITY-TOKEN`
absent it fails with `KeyError "X-SECURITY-TOKEN"`; when both are
present their values are stored unconditionally into the session and no
error is raised. -/
theorem authenticate_token_extraction
    (t : Transport) (now : Int) (auth : IGUserAuth) (api : IGAPIConfig)
    (session : IGSession)
    (hHint : hintParses (authPostResponse t auth api) = true) :
    (dictGet (authPostResponse t auth api).headers "CST" = none →
      (authenticate t now auth api session).error = some (PyError.keyError "CST") ∧
      (authentication_is_valid session now = false →
        ∀ url method headers data,
          (authenticated_request t now auth api session url method headers data).error =
            some (PyError.keyError "CST") ∧
          (authenticated_request t now auth api session url method headers data).response =
            none)) ∧
    (∀ c, dictGet (authPostResponse t auth api).headers "CST" = some c →
      dictGet (authPostResponse t auth api).headers "X-SECURITY-TOKEN" = none →
      (authenticate t now auth api session).error =
        some (PyError.keyError "X-SECURITY-TOKEN")) ∧
    (∀ c st, dictGet (authPostResponse t auth api).headers "CST" = some c →
      dictGet (authPostResponse t auth api).headers "X-SECURITY-TOKEN" = some st →
      (authenticate t now auth api session).session.cst = some c ∧
      (authenticate t now auth api session).session.security_token = some st ∧
      (authenticate t now auth api session).error = none) := by
  obtain ⟨s1, hc1, hs1, hEq⟩ := authenticate_hint_ok t now auth api session hHint
  refine ⟨?_, ?_, ?_⟩
  · intro hC
    have herr : (authenticate t now auth api session).error =
        some (PyError.keyError "CST") := by
      rw [hEq]
      simp only [extractTokens, hC]
    refine ⟨herr, ?_⟩
    intro hInv url method headers data
    simp only [authenticated_request, hInv, Bool.false_eq_true, if_false, herr]
    refine ⟨?_, ?_⟩ <;> trivial
  · intro c hC hS
    rw [hEq]
    simp only [extractTokens, hC, hS]
  · intro c st hC hS
    rw [hEq]
    simp only [extractTokens, hC, hS]
    refine ⟨?_, ?_, ?_⟩ <;> trivial

/-- A transport whose responses carry the expiry hint but neither token. -/
def mockNoTokenTransport : Transport := fun _ _ _ _ =>
  ⟨[], [("Access-Control-Max-Age", "3600")]⟩

/-- Witness for C6: with a tokenless response whose hint parses,
authentication fails with `KeyError "CST"` and the error propagates
through `_authenticated_request` without the target call being made. -/
theorem authenticate_token_extraction_witness :
    hintParses (authPostResponse mockNoTokenTransport mockAuth mockApi) = true ∧
    dictGet (authPostResponse mockNoTokenTransport mockAuth mockApi).headers "CST" = none ∧
    authentication_is_valid freshSession 100 = false ∧
    (authenticate mockNoTokenTransport 100 mockAuth mockApi freshSession).error =
      some (PyError.keyError "CST") ∧
    (authenticated_request mockNoTokenTransport 100 mockAuth mockApi freshSession
        "https://api.ig.com/gateway/deal/accounts" "get" none none).error =
      some (PyError.keyError "CST") ∧
    (authenticated_request mockNoTokenTransport 100 mockAuth mockApi freshSession
        "https://api.ig.com/gateway/deal/accounts" "get" none none).response = none := by
  have h := (authenticate_token_extraction mockNoTokenTransport 100 mockAuth mockApi
    freshSession rfl).1 rfl
  have h2 := h.2 (by decide) "https://api.ig.com/gateway/deal/accounts" "get" none none
  exact ⟨rfl, rfl, by decide, h.1, h2.1, h2.2⟩

/-! ### C8 -/

/-- C8 (counterexample): for an authentication response carrying the
malformed expiry hint `Access-Control-Max-Age: abc` and no `CST`
header, `_authenticate` raises the `ValueError` of `int("abc")` with
the Session State entirely unchanged — `expires` is not overwritten and
no lookup error is raised, against the claim's assertion for every
hint-carrying `CST`-less response. -/
theorem authenticate_malformed_hint_leaves_session_unchanged :
    authenticate mockBadHintTransport 100 mockAuth mockApi liveSession =
      ⟨liveSession, [authPostCall mockAuth mockApi], some PyError.valueError⟩ ∧
    some PyError.valueError ≠ some (PyError.keyError "CST") :=
  ⟨rfl, by decide⟩

/-- C8 (amended): when the expiry hint parses as a numeral `n`,
`_authenticate` is not atomic on error: with `CST` absent the
`KeyError` is raised only after `expires` was already overwritten to
`now + n` (tokens keep their old values); with `CST` present but
`X-SECURITY-TOKEN` absent, `expires` and `cst` have both been
overwritten when the error is raised.  When the hint is present but
malformed, the flow instead stops at a `ValueError` with the session
entirely unchanged. -/
theorem authenticate_partial_mutation_on_error
    (t : Transport) (now : Int) (auth : IGUserAuth) (api : IGAPIConfig)
    (session : IGSession) :
    (∀ hint n, dictGet (authPostResponse t auth api).headers "Access-Control-Max-Age" =
        some hint → pyIntOpt hint = some n →
      dictGet (authPostResponse t auth api).headers "CST" = none →
      authenticate t now auth api session =
        ⟨⟨session.cst, session.security_token, now + n⟩,
          [authPostCall auth api], some (PyError.keyError "CST")⟩) ∧
    (∀ hint n c, dictGet (authPostResponse t auth api).headers "Access-Control-Max-Age" =
        some hint → pyIntOpt hint = some n →
      dictGet (authPostResponse t auth api).headers "CST" = some c →
      dictGet (authPostResponse t auth api).headers "X-SECURITY-TOKEN" = none →
      authenticate t now auth api session =
        ⟨⟨some c, session.security_token, now + n⟩,
          [authPostCall auth api], some (PyError.keyError "X-SECURITY-TOKEN")⟩) ∧
    (∀ hint, dictGet (authPostResponse t auth api).headers "Access-Control-Max-Age" =
        some hint → pyIntOpt hint = none →
      authenticate t now auth api session =
        ⟨session, [authPostCall auth api], some PyError.valueError⟩) := by
  refine ⟨?_, ?_, ?_⟩
  · intro hint n hMA hpy hC
    simp only [authenticate, hMA, hpy, extractTokens, hC]
  · intro hint n c hMA hpy hC hS
    simp only [authenticate, hMA, hpy, extractTokens, hC, hS]
  · intro hint hMA hpy
    simp only [authenticate, hMA, hpy]

/-- A transport whose responses carry the expiry hint and `CST` but no
security token. -/
def mockNoSecurityTransport : Transport := fun _ _ _ _ =>
  ⟨[], [("Access-Control-Max-Age", "3600"), ("CST", "abc")]⟩

/-- Witness for C8: the two partial-mutation scenarios at concrete
transports with a parsing hint, and the malformed-hint scenario with
the session left unchanged. -/
theorem authenticate_partial_mutation_on_error_witness :
    (dictGet (authPostResponse mockNoTokenTransport mockAuth mockApi).headers
        "Access-Control-Max-Age" = some "3600" ∧
      pyIntOpt "3600" = some 3600 ∧
      authenticate mockNoTokenTransport 100 mockAuth mockApi liveSession =
        ⟨⟨liveSession.cst, liveSession.security_token, 100 + 3600⟩,
          [authPostCall mockAuth mockApi], some (PyError.keyError "CST")⟩) ∧
    (dictGet (authPostResponse mockNoSecurityTransport mockAuth mockApi).headers
        "CST" = some "abc" ∧
      authenticate mockNoSecurityTransport 100 mockAuth mockApi liveSession =
        ⟨⟨some "abc", liveSession.security_token, 100 + 3600⟩,
          [authPostCall mockAuth mockApi], some (PyError.keyError "X-SECURITY-TOKEN")⟩) ∧
    (pyIntOpt "abc" = none ∧
      authenticate mockBadHintTransport 100 mockAuth mockApi freshSession =
        ⟨freshSession, [authPostCall mockAuth mockApi], some PyError.valueError⟩) :=
  ⟨⟨rfl, rfl, (authenticate_partial_mutation_on_error mockNoTokenTransport 100 mockAuth
      mockApi liveSession).1 "3600" 3600 rfl rfl rfl⟩,
    ⟨rfl, (authenticate_partial_mutation_on_error mockNoSecurityTransport 100 mockAuth
      mockApi liveSession).2.1 "3600" 3600 "abc" rfl rfl rfl rfl⟩,
    ⟨rfl, (authenticate_partial_mutation_on_error mockBadHintTransport 100 mockAuth
      mockApi freshSession).2.2 "abc" rfl rfl⟩⟩

/-! ### Endpoint Resolver and Credentials construction -/

/-- A configuration error raised at construction (`ValueError` in the
source), carried structurally: the missing-field error names the field
and its environment variable exactly as the raised message does, the
platform error names the rejected platform. -/
inductive ConfigError where
  | missingField (fieldName : String) (envVarName : String)
  | unknownPlatform (platform : String)
deriving DecidableEq

/-- The `platform_urls` mapping of `IGAPIConfig.__post_init__`. -/
def platform_urls : Dict String :=
  [("live", "https://api.ig.com/gateway/deal"),
   ("demo", "https://demo-api.ig.com/gateway/deal")]

/-- `IGAPIConfig.__post_init__` as in `client.py`: explicit argument, else
`os.environ.get("IG_PLATFORM", default="live")`; reject a platform
outside `platform_urls`; derive `base_url`. -/
def igAPIConfigPostInit (env : Dict String) (platform : Option String) :
    Except ConfigError IGAPIConfig :=
  let p := match platform with
    | some s => s
    | none => (dictGet env "IG_PLATFORM").getD "live"
  match dictGet platform_urls p with
  | some u => Except.ok ⟨p, u⟩
  | none => Except.error (ConfigError.unknownPlatform p)

/-- `IGAPIConfig.__post_init__` as in `models.py`: explicit argument, else
the literal `"demo"`; the environment is never consulted (the function
does not even take it). -/
def modelsIGAPIConfigPostInit (platform : Option String) :
    Except ConfigError IGAPIConfig :=
  let p := match platform with
    | some s => s
    | none => "demo"
  match dictGet platform_urls p with
  | some u => Except.ok ⟨p, u⟩
  | none => Except.error (ConfigError.unknownPlatform p)

/-- Python `str.upper` restricted to the ASCII names it is applied to. -/
def pyUpper (s : String) : String := String.mk (s.data.map Char.toUpper)

/-- One step of the `IGUserAuth.__post_init__` loop over the dataclass
fields: an unset field is resolved from `IG_<FIELDNAME_UPPER>`, and a
`ValueError` naming the field and the variable is raised when both are
absent.  Identical in `client.py` and `models.py`. -/
def fillFromEnv (env : Dict String) (fieldName : String) (v : Option String) :
    Except ConfigError String :=
  match v with
  | some s => Except.ok s
  | none =>
    match dictGet env ("IG_" ++ pyUpper fieldName) with
    | some s => Except.ok s
    | none =>
      Except.error (ConfigError.missingField fieldName ("IG_" ++ pyUpper fieldName))

/-- `IGUserAuth.__post_init__`: fields are visited in declaration order
`api_key`, `username`, `password`, and the first unresolvable one
raises, ending the loop. -/
def igUserAuthPostInit (env : Dict String)
    (api_key username password : Option String) : Except ConfigError IGUserAuth :=
  match fillFromEnv env "api_key" api_key with
  | Except.error e => Except.error e
  | Except.ok a =>
    match fillFromEnv env "username" username with
    | Except.error e => Except.error e
    | Except.ok u =>
      match fillFromEnv env "password" password with
      | Except.error e => Except.error e
      | Except.ok p => Except.ok ⟨a, u, p⟩

/-! ### C7 -/

/-- C7 (counterexample): the `models.py` variant of the Endpoint Resolver —
one of the two constructions the claim covers — never consults the
`IG_PLATFORM` environment variable (it does not read the environment at
all), and with no explicit argument resolves to the literal `"demo"`.
So in an environment with `IG_PLATFORM=live` (a recognized value) and no
argument, the resolved platform is `"demo"`, not the environment value
`"live"` the claim requires. -/
theorem models_config_ignores_environment :
    modelsIGAPIConfigPostInit none =
      Except.ok ⟨"demo", "https://demo-api.ig.com/gateway/deal"⟩ ∧
    ("demo" : String) ≠ "live" :=
  ⟨rfl, by decide⟩

/-- C7 (amended): the `client.py` resolver resolves the platform in the
order explicit argument → `IG_PLATFORM` environment variable → literal
default `"live"` (the environment is consulted only when no argument is
given, and the default only when the variable is also absent), while the
`models.py` resolver takes the explicit argument else the literal
default `"demo"` and never consults the environment. -/
theorem platform_resolution_order :
    (∀ env p, igAPIConfigPostInit env (some p) = igAPIConfigPostInit [] (some p)) ∧
    (∀ env v, dictGet env "IG_PLATFORM" = some v →
      igAPIConfigPostInit env none = igAPIConfigPostInit env (some v)) ∧
    (∀ env, dictGet env "IG_PLATFORM" = none →
      igAPIConfigPostInit env none =
        Except.ok ⟨"live", "https://api.ig.com/gateway/deal"⟩) ∧
    (∀ env p, modelsIGAPIConfigPostInit (some p) = igAPIConfigPostInit env (some p)) ∧
    (modelsIGAPIConfigPostInit none =
      Except.ok ⟨"demo", "https://demo-api.ig.com/gateway/deal"⟩) := by
  refine ⟨fun env p => rfl, ?_, ?_, fun env p => rfl, rfl⟩
  · intro env v hv
    simp [igAPIConfigPostInit, hv]
  · intro env hv
    simp [igAPIConfigPostInit, hv, platform_urls, dictGet]

/-- Witness for C7 (amended): with `IG_PLATFORM=demo` in the environment
and no explicit argument, the `client.py` resolver resolves exactly as
if `"demo"` had been passed explicitly. -/
theorem platform_resolution_order_witness :
    dictGet [("IG_PLATFORM", "demo")] "IG_PLATFORM" = some "demo" ∧
    igAPIConfigPostInit [("IG_PLATFORM", "demo")] none =
      igAPIConfigPostInit [("IG_PLATFORM", "demo")] (some "demo") :=
  ⟨rfl, platform_resolution_order.2.1 [("IG_PLATFORM", "demo")] "demo" rfl⟩

/-! ### C10 -/

/-- C10: constructing `IGUserAuth` with all three fields unset in an
environment where `IG_API_KEY` is absent fails with the configuration
error naming the first field in declaration order, `api_key`, and its
environment variable `IG_API_KEY`; no later field is reported. -/
theorem user_auth_missing_first_field_error (env : Dict String)
    (h : dictGet env "IG_API_KEY" = none) :
    igUserAuthPostInit env none none none =
      Except.error (ConfigError.missingField "api_key" "IG_API_KEY") := by
  have hup : ("IG_" ++ pyUpper "api_key") = "IG_API_KEY" := by decide
  have hfill : fillFromEnv env "api_key" none =
      Except.error (ConfigError.missingField "api_key" "IG_API_KEY") := by
    simp only [fillFromEnv, hup, h]
  simp only [igUserAuthPostInit, hfill]

/-- Witness for C10 at the empty environment. -/
theorem user_auth_missing_first_field_error_witness :
    dictGet ([] : Dict String) "IG_API_KEY" = none ∧
    igUserAuthPostInit [] none none none =
      Except.error (ConfigError.missingField "api_key" "IG_API_KEY") :=
  ⟨rfl, user_auth_missing_first_field_error [] rfl⟩

/-! ### CLI price retrieval (C9) -/

/-- The range / max-points selection of `InstrumentCommand._get`: with a
truthy `--range` the bounds are parsed and max-points is left `None`;
only otherwise a truthy `--max-num` is taken.  Python truthiness:
a two-element range list is always truthy, an empty string is not. -/
def cliPricesParams (parseDate : String → String)
    (range : Option (String × String)) (maxNum : Option String) :
    Option String × Option String × Option String :=
  match range with
  | some (f, g) => (some (parseDate f), some (parseDate g), none)
  | none =>
    match maxNum with
    | some m => if m == "" then (none, none, none) else (none, none, some m)
    | none => (none, none, none)

/-- Modelled from the spec: the body of `IGClient.get_prices` is not under
`src/` (only its caller `InstrumentCommand._get` is).  Per the spec, the
prices request carries query parameters `resolution`, `pageSize`, and
either `from`/`to` when a date range is given or `max` when a max-points
truncation is given, the date range taking precedence when both are
given. -/
def getPricesQueryPayload (resolution pageSize : String)
    (startTime endTime maxPoints : Option String) : Dict String :=
  [("resolution", resolution), ("pageSize", pageSize)] ++
    (match startTime, endTime with
     | some f, some g => [("from", f), ("to", g)]
     | _, _ =>
       match maxPoints with
       | some m => [("max", m)]
       | none => [])

/-- The query payload the CLI price-retrieval path emits for given
`--range` and `--max-num` arguments. -/
def cliEmittedPricesPayload (parseDate : String → String)
    (resolution pageSize : String) (range : Option (String × String))
    (maxNum : Option String) : Dict String :=
  match cliPricesParams parseDate range maxNum with
  | (startTime, endTime, maxPoints) =>
    getPricesQueryPayload resolution pageSize startTime endTime maxPoints

/-- C9: when both a date range and a max-points value are supplied to the
price-retrieval path, the range wins: the emitted query payload carries
`from` and `to` (the parsed range bounds) and has no `max` key. -/
theorem cli_range_takes_precedence_over_max
    (parseDate : String → String) (resolution pageSize f g m : String) :
    dictGet (cliEmittedPricesPayload parseDate resolution pageSize
        (some (f, g)) (some m)) "from" = some (parseDate f) ∧
    dictGet (cliEmittedPricesPayload parseDate resolution pageSize
        (some (f, g)) (some m)) "to" = some (parseDate g) ∧
    dictGet (cliEmittedPricesPayload parseDate resolution pageSize
        (some (f, g)) (some m)) "max" = none := by
  simp [cliEmittedPricesPayload, cliPricesParams, getPricesQueryPayload, dictGet]

end Pygindex
